import Mathlib

/-!
# CommandCore Launcher — verification of the process supervisor,
# metrics poller and configuration manager

Shallow embedding of the core logic of `src/CommandCore`
(`application_manager_tab.py`, `system_status_tab.py`, `config.py`).

Modelling conventions:
* Python `Optional[T]` becomes `Option T`; Python exceptions are modelled
  by the code paths that catch them (every relevant handler catches and
  returns a failure value, so the embedded functions are total).
* Interaction with the operating system (filesystem probes, `QProcess`
  launch/termination results, `psutil` counters, wall-clock times) is
  passed in explicitly as parameters, so every run of the Python code
  corresponds to an instantiation of those parameters.
* Wall-clock durations (`total_seconds()`) are modelled as rationals;
  `int(x)` on a non-negative value is the floor.
* Qt signal handlers (`_on_process_started`, `_on_process_finished`) are
  modelled as separate atomic transitions that the event loop may run
  after the triggering condition.
-/

namespace CommandCore

/-- Mirrors `AppStatus` (application_manager_tab.py). -/
inductive AppStatus where
  | unknown
  | stopped
  | starting
  | running
  | stopping
  | error
  | notInstalled
deriving DecidableEq, Repr

/-- Mirrors the runtime-relevant fields of the `ApplicationInfo` dataclass
(application_manager_tab.py).  Timestamps and pids are abstract naturals. -/
structure ApplicationInfo where
  executablePath : String
  workingDirectory : String
  status : AppStatus := .stopped
  pid : Option Nat := none
  startTime : Option Nat := none
  lastError : Option String := none
  validated : Bool := false
  environmentVars : List (String × String) := []
  commandArgs : List String := []
deriving DecidableEq, Repr

/-- Results of the operating-system probes performed by
`ProcessMonitor._validate_application` and `_prepare_command`:
`exec_path.exists()`, `exec_path.is_file()`, `os.access(exec_path, X_OK)`,
`sys.platform == "win32"`, `work_dir.exists() and work_dir.is_dir()`,
`exec_path.suffix.lower() == ".py"`, and whether `shutil.which` finds a
Python interpreter. -/
structure ValidationCtx where
  execExists : Bool
  execIsFile : Bool
  execXok : Bool
  platformWin : Bool
  workdirExists : Bool
  workdirIsDir : Bool
  isPyScript : Bool
  pythonAvailable : Bool
deriving DecidableEq, Repr

/-- Mirrors `ProcessMonitor._validate_application`.  Returns the boolean
result together with the mutated `ApplicationInfo` (the Python code mutates
`last_error`, `status` and `validated` in place). -/
def validateApplication (ctx : ValidationCtx) (a : ApplicationInfo) :
    Bool × ApplicationInfo :=
  if !ctx.execExists then
    (false, { a with lastError := some ("Executable not found: " ++ a.executablePath),
                     status := .notInstalled })
  else if !ctx.execIsFile then
    (false, { a with lastError := some ("Executable path is not a file: " ++ a.executablePath),
                     status := .notInstalled })
  else if !ctx.platformWin && !ctx.execXok then
    (false, { a with lastError := some ("Executable not executable: " ++ a.executablePath),
                     status := .error })
  else if !(ctx.workdirExists && ctx.workdirIsDir) then
    (false, { a with lastError := some ("Working directory not found: " ++ a.workingDirectory),
                     status := .error })
  else if ctx.isPyScript && !ctx.pythonAvailable then
    (false, { a with lastError := some "Python interpreter not found",
                     status := .notInstalled })
  else
    (true, { a with validated := true, lastError := none })

/-- State of the `ProcessMonitor` restricted to a single monitored
application id: the `ApplicationInfo` record, whether the id is a key of
`self.processes`, and whether that `QProcess` is in a state other than
`QProcess.NotRunning`. -/
structure MonState where
  app : ApplicationInfo
  hasProc : Bool
  procAlive : Bool
deriving DecidableEq, Repr

/-- Mirrors `ProcessMonitor.add_application`: the application is registered
only when `_validate_application` succeeds. -/
def addApplication (ctx : ValidationCtx) (a : ApplicationInfo) : Option MonState :=
  let va := validateApplication ctx a
  if va.1 then some { app := va.2, hasProc := false, procAlive := false } else none

/-- Mirrors `ProcessMonitor.start_application` for a registered id.
`waitOk` is the result of `process.waitForStarted(5000)`.  Side effects
that do not touch the monitored state (building the child environment,
connecting signals, logging) are modelled separately
(`buildEnvironment`). -/
def startApplication (ctx : ValidationCtx) (waitOk : Bool) (s : MonState) :
    Bool × MonState :=
  let va := validateApplication ctx s.app
  if !va.1 then
    (false, { s with app := va.2 })
  else if s.hasProc && s.procAlive then
    -- "Application is already running"
    (false, { s with app := va.2 })
  else if ctx.isPyScript && !ctx.pythonAvailable then
    -- `_prepare_command` found no interpreter (unreachable after a
    -- successful validation, mirrored for completeness)
    (false, { s with app := { va.2 with lastError := some "No Python interpreter found" } })
  else
    let a2 := { va.2 with status := AppStatus.starting }
    if waitOk then
      (true, { s with app := a2, hasProc := true, procAlive := true })
    else
      let aErr := { a2 with status := AppStatus.error,
                            lastError := some "Process failed to start within timeout" }
      (false, { s with app := aErr })

/-- Python truthiness of the `Optional[int]` field `app_info.pid`
(`None` and `0` are falsy). -/
def pidTruthy : Option Nat → Bool
  | none => false
  | some p => p != 0

/-- Mirrors `ProcessMonitor.stop_application`.  `qWaitFin1` is the result
of the first `process.waitForFinished(5000)`, `qWaitFin2` of the
`waitForFinished(2000)` after the forced kill, and `psutilOk` tells
whether the `psutil` fallback raised `NoSuchProcess`/`AccessDenied`
(which the code catches, leaving `stopped` unchanged). -/
def stopApplication (force qWaitFin1 qWaitFin2 psutilOk : Bool) (s : MonState) :
    Bool × MonState :=
  let a := { s.app with status := AppStatus.stopping }
  let qStop : Bool :=
    if s.hasProc && s.procAlive then
      if qWaitFin1 then true
      else if force then qWaitFin2
      else false
    else false
  let stopped : Bool :=
    if !qStop && pidTruthy a.pid then
      if psutilOk then true else qStop
    else qStop
  (stopped, { s with app := a, procAlive := s.procAlive && !stopped })

/-- Mirrors `ProcessMonitor._on_process_started` (fires only when the id is
in both `monitored_apps` and `processes`; the single-app model keeps the
registry membership implicit).  `newPid` is `process.processId()` and `t`
is `datetime.now()`. -/
def onProcessStarted (newPid : Nat) (t : Nat) (s : MonState) : MonState :=
  if s.hasProc then
    { s with app := { s.app with status := AppStatus.running,
                                 pid := some newPid,
                                 startTime := some t,
                                 lastError := none } }
  else s

/-- Python `str.strip()` restricted to its whitespace default: drops
leading and trailing whitespace characters. -/
def stripStr (s : String) : String :=
  String.mk (((s.data.dropWhile Char.isWhitespace).reverse.dropWhile
      Char.isWhitespace).reverse)

/-- Mirrors `ProcessMonitor._on_process_finished`.  `crashed` is
`exit_status == QProcess.CrashExit` and `stderrBuf` the raw buffered
standard-error bytes (`readAllStandardError`), decoded; the handler strips
it and substitutes a generic message when it is empty. -/
def onProcessFinished (exitCode : Int) (crashed : Bool) (stderrBuf : String)
    (s : MonState) : MonState :=
  let statusText := if crashed then "crashed" else "exited with code " ++ toString exitCode
  let errorOutput : String :=
    if s.hasProc then
      if stderrBuf != "" then stripStr stderrBuf else ""
    else ""
  let a :=
    if crashed || exitCode != 0 then
      { s.app with status := AppStatus.error,
                   lastError := some (if errorOutput != "" then errorOutput
                                      else "Process " ++ statusText) }
    else
      { s.app with status := AppStatus.stopped, lastError := none }
  { s with app := { a with pid := none, startTime := none },
           hasProc := false, procAlive := false }

/-- C2: starting an application whose executable path does not exist on the
filesystem returns `False`, leaves the application in status
`not_installed`, and in particular never yields status `running` from that
call. -/
theorem start_missing_executable_not_installed
    (ctx : ValidationCtx) (waitOk : Bool) (s : MonState)
    (h : ctx.execExists = false) :
    (startApplication ctx waitOk s).1 = false ∧
    (startApplication ctx waitOk s).2.app.status = AppStatus.notInstalled ∧
    (startApplication ctx waitOk s).2.app.status ≠ AppStatus.running := by
  simp [startApplication, validateApplication, h]

theorem start_missing_executable_not_installed_witness :
    (startApplication ⟨false, true, true, false, true, true, false, true⟩ true
        { app := { executablePath := "/opt/demo/app", workingDirectory := "/opt/demo" },
          hasProc := false, procAlive := false }).1 = false ∧
    (startApplication ⟨false, true, true, false, true, true, false, true⟩ true
        { app := { executablePath := "/opt/demo/app", workingDirectory := "/opt/demo" },
          hasProc := false, procAlive := false }).2.app.status = AppStatus.notInstalled ∧
    (startApplication ⟨false, true, true, false, true, true, false, true⟩ true
        { app := { executablePath := "/opt/demo/app", workingDirectory := "/opt/demo" },
          hasProc := false, procAlive := false }).2.app.status ≠ AppStatus.running :=
  start_missing_executable_not_installed _ _ _ rfl

/-- A registered application that has been launched and has already come
back to rest: stopped, no pid, no owned `QProcess`. -/
def demoStopped : MonState :=
  { app := { executablePath := "/opt/demo/app", workingDirectory := "/opt/demo",
             status := AppStatus.stopped, validated := true },
    hasProc := false, procAlive := false }

/-- C3 counterexample: on an already-stopped application,
`stop_application` does return `False` but it is not a state no-op — it
overwrites the status field with `stopping`. -/
theorem stop_second_call_counterexample :
    (stopApplication false true true true demoStopped).1 = false ∧
    demoStopped.app.status = AppStatus.stopped ∧
    (stopApplication false true true true demoStopped).2.app.status = AppStatus.stopping ∧
    (stopApplication false true true true demoStopped).2.app.status ≠ demoStopped.app.status := by
  refine ⟨rfl, rfl, rfl, ?_⟩
  decide

/-- C3 (amended): a second `stop_application` on an application that is not
running (no pid recorded, no owned process) returns `False` and raises no
exception (every failure path is caught), and leaves `pid`, `start_time`
and `last_error` unchanged — but it does mutate `status`, unconditionally
setting it to `stopping`, so the call is not a complete state no-op. -/
theorem stop_second_call_amended (force q1 q2 ps : Bool) (s : MonState)
    (hp : s.app.pid = none) (hproc : s.hasProc = false) :
    (stopApplication force q1 q2 ps s).1 = false ∧
    (stopApplication force q1 q2 ps s).2.app.pid = s.app.pid ∧
    (stopApplication force q1 q2 ps s).2.app.startTime = s.app.startTime ∧
    (stopApplication force q1 q2 ps s).2.app.lastError = s.app.lastError ∧
    (stopApplication force q1 q2 ps s).2.app.status = AppStatus.stopping := by
  simp [stopApplication, pidTruthy, hp, hproc]

theorem stop_second_call_amended_witness :
    (stopApplication false true true true demoStopped).1 = false ∧
    (stopApplication false true true true demoStopped).2.app.pid = demoStopped.app.pid ∧
    (stopApplication false true true true demoStopped).2.app.startTime
      = demoStopped.app.startTime ∧
    (stopApplication false true true true demoStopped).2.app.lastError
      = demoStopped.app.lastError ∧
    (stopApplication false true true true demoStopped).2.app.status = AppStatus.stopping :=
  stop_second_call_amended false true true true demoStopped rfl rfl

/-- C6: when a running managed process exits, `_on_process_finished` sets
status `stopped` with `last_error` cleared on exit code 0 without a crash
flag, and status `error` otherwise, with `last_error` equal to the
stripped buffered standard-error output when one is attached and
non-blank, or the generic crash/exit message otherwise; in both cases
`pid` and `start_time` are cleared. -/
theorem process_finished_transitions (ec : Int) (crashed : Bool) (buf : String)
    (s : MonState) (_hrun : s.app.status = AppStatus.running) :
    (ec = 0 → crashed = false →
      (onProcessFinished ec crashed buf s).app.status = AppStatus.stopped ∧
      (onProcessFinished ec crashed buf s).app.lastError = none) ∧
    ((ec ≠ 0 ∨ crashed = true) →
      (onProcessFinished ec crashed buf s).app.status = AppStatus.error ∧
      ((s.hasProc = true → buf ≠ "" → stripStr buf ≠ "" →
         (onProcessFinished ec crashed buf s).app.lastError = some (stripStr buf)) ∧
       (s.hasProc = false ∨ buf = "" ∨ stripStr buf = "" →
         (onProcessFinished ec crashed buf s).app.lastError =
           some ("Process " ++
             (if crashed then "crashed" else "exited with code " ++ toString ec))))) ∧
    (onProcessFinished ec crashed buf s).app.pid = none ∧
    (onProcessFinished ec crashed buf s).app.startTime = none := by
  refine ⟨?_, ?_, ?_, ?_⟩
  · intro hec hcr
    simp [onProcessFinished, hec, hcr]
  · intro h
    have hcond : (crashed || ec != 0) = true := by
      rcases h with h | h
      · simp [h]
      · simp [h]
    refine ⟨by simp [onProcessFinished, hcond], ?_, ?_⟩
    · intro hp hb ht
      simp [onProcessFinished, hcond, hp, hb, ht]
    · intro hgen
      rcases hgen with hgen | hgen | hgen
      · simp [onProcessFinished, hcond, hgen]
      · simp [onProcessFinished, hcond, hgen]
      · by_cases hp : s.hasProc <;> by_cases hb : buf = "" <;>
          simp [onProcessFinished, hcond, hp, hb, hgen]
  · cases hc : (crashed || ec != 0) <;> simp [onProcessFinished, hc]
  · cases hc : (crashed || ec != 0) <;> simp [onProcessFinished, hc]

theorem process_finished_transitions_witness :
    (let s := { app := { executablePath := "/opt/demo/app",
                         workingDirectory := "/opt/demo",
                         status := AppStatus.running, pid := some 4242,
                         startTime := some 17, validated := true },
                hasProc := true, procAlive := true : MonState }
     (onProcessFinished 0 false "" s).app.status = AppStatus.stopped ∧
     (onProcessFinished 0 false "" s).app.lastError = none ∧
     (onProcessFinished 0 false "" s).app.pid = none ∧
     (onProcessFinished 0 false "" s).app.startTime = none ∧
     (onProcessFinished 3 false " boom \n" s).app.status = AppStatus.error ∧
     (onProcessFinished 3 false " boom \n" s).app.lastError = some "boom") := by
  have h0 := process_finished_transitions 0 false ""
    { app := { executablePath := "/opt/demo/app", workingDirectory := "/opt/demo",
               status := AppStatus.running, pid := some 4242,
               startTime := some 17, validated := true },
      hasProc := true, procAlive := true } rfl
  have h3 := process_finished_transitions 3 false " boom \n"
    { app := { executablePath := "/opt/demo/app", workingDirectory := "/opt/demo",
               status := AppStatus.running, pid := some 4242,
               startTime := some 17, validated := true },
      hasProc := true, procAlive := true } rfl
  refine ⟨(h0.1 rfl rfl).1, (h0.1 rfl rfl).2, h0.2.2.1, h0.2.2.2, ?_, ?_⟩
  · exact (h3.2.1 (Or.inl (by decide))).1
  · have := (h3.2.1 (Or.inl (by decide))).2.1 rfl (by decide) (by decide)
    simpa using this

/-- One supervisor-driven transition of a monitored application: a start
request (with arbitrary filesystem/launch outcomes), the started signal, the
finished signal (only emitted for an owned process), or a stop request. -/
inductive Step : MonState → MonState → Prop where
  | start {s : MonState} (ctx : ValidationCtx) (waitOk : Bool) :
      Step s (startApplication ctx waitOk s).2
  | started {s : MonState} (p t : Nat) :
      Step s (onProcessStarted p t s)
  | finished {s : MonState} (ec : Int) (crashed : Bool) (buf : String)
      (h : s.hasProc = true) :
      Step s (onProcessFinished ec crashed buf s)
  | stop {s : MonState} (force q1 q2 ps : Bool) :
      Step s (stopApplication force q1 q2 ps s).2

/-- States reachable from a given state by supervisor transitions. -/
inductive Reach : MonState → MonState → Prop where
  | refl (s : MonState) : Reach s s
  | tail {s t u : MonState} : Reach s t → Step t u → Reach s u

/-- The per-process field invariant that actually holds along every
execution: `running` implies both `pid` and `start_time` are recorded,
the two fields are always recorded together, and a `stopped` process has
no recorded pid. -/
def PidInvA (a : ApplicationInfo) : Prop :=
  (a.status = AppStatus.running → a.pid ≠ none ∧ a.startTime ≠ none)
  ∧ (a.pid = none ↔ a.startTime = none)
  ∧ (a.status = AppStatus.stopped → a.pid = none)

def PidInv (s : MonState) : Prop := PidInvA s.app

lemma pidInvA_validate (ctx : ValidationCtx) (a : ApplicationInfo)
    (h : PidInvA a) : PidInvA (validateApplication ctx a).2 := by
  obtain ⟨h1, h2, h3⟩ := h
  unfold validateApplication
  split_ifs
  · exact ⟨fun hst => by simp at hst, by simpa using h2, fun hst => by simp at hst⟩
  · exact ⟨fun hst => by simp at hst, by simpa using h2, fun hst => by simp at hst⟩
  · exact ⟨fun hst => by simp at hst, by simpa using h2, fun hst => by simp at hst⟩
  · exact ⟨fun hst => by simp at hst, by simpa using h2, fun hst => by simp at hst⟩
  · exact ⟨fun hst => by simp at hst, by simpa using h2, fun hst => by simp at hst⟩
  · exact ⟨fun hst => by simpa using h1 (by simpa using hst), by simpa using h2,
           fun hst => by simpa using h3 (by simpa using hst)⟩

lemma pidInv_start (ctx : ValidationCtx) (waitOk : Bool) (s : MonState)
    (h : PidInv s) : PidInv (startApplication ctx waitOk s).2 := by
  have hva := pidInvA_validate ctx s.app h
  obtain ⟨v1, v2, v3⟩ := hva
  simp only [PidInv, PidInvA, startApplication]
  split_ifs
  · exact ⟨v1, v2, v3⟩
  · exact ⟨v1, v2, v3⟩
  · exact ⟨fun hst => by simpa using v1 (by simpa using hst), by simpa using v2,
           fun hst => by simpa using v3 (by simpa using hst)⟩
  · exact ⟨fun hst => by simp at hst, by simpa using v2, fun hst => by simp at hst⟩
  · exact ⟨fun hst => by simp at hst, by simpa using v2, fun hst => by simp at hst⟩

lemma pidInv_started (p t : Nat) (s : MonState)
    (h : PidInv s) : PidInv (onProcessStarted p t s) := by
  simp only [PidInv, PidInvA, onProcessStarted]
  split_ifs
  · exact ⟨fun _ => by simp, by simp, fun hst => by simp at hst⟩
  · exact h

lemma pidInv_finished (ec : Int) (crashed : Bool) (buf : String) (s : MonState)
    (_h : PidInv s) : PidInv (onProcessFinished ec crashed buf s) := by
  simp only [PidInv, PidInvA, onProcessFinished]
  split_ifs
  · exact ⟨fun hst => by simp at hst, by simp, fun hst => by simp at hst⟩
  · exact ⟨fun hst => by simp at hst, by simp, fun _ => by simp⟩

lemma pidInv_stop (force q1 q2 ps : Bool) (s : MonState)
    (h : PidInv s) : PidInv (stopApplication force q1 q2 ps s).2 := by
  obtain ⟨h1, h2, h3⟩ := h
  exact ⟨fun hst => by simp [stopApplication] at hst, by simpa [stopApplication] using h2,
         fun hst => by simp [stopApplication] at hst⟩

lemma pidInv_step {s u : MonState} (h : PidInv s) (hs : Step s u) : PidInv u := by
  cases hs with
  | start ctx waitOk => exact pidInv_start ctx waitOk _ h
  | started p t => exact pidInv_started p t _ h
  | finished ec crashed buf _hp => exact pidInv_finished ec crashed buf _ h
  | stop force q1 q2 ps => exact pidInv_stop force q1 q2 ps _ h

/-- C1 counterexample: the claimed biconditional `pid ≠ None ↔ status =
running` fails on a real trace — register, start, receive the started
signal, then request a stop: the status is already `stopping` while `pid`
is still recorded. -/
def ctxGood : ValidationCtx :=
  ⟨true, true, true, false, true, true, false, true⟩

def demoApp : ApplicationInfo :=
  { executablePath := "/opt/demo/app", workingDirectory := "/opt/demo" }

def demoRegistered : MonState :=
  { app := { demoApp with validated := true }, hasProc := false, procAlive := false }

def c1Trace : MonState :=
  (stopApplication false false false true
    (onProcessStarted 4242 17 (startApplication ctxGood true demoRegistered).2)).2

theorem pid_running_iff_counterexample :
    addApplication ctxGood demoApp = some demoRegistered ∧
    Reach demoRegistered c1Trace ∧
    c1Trace.app.pid = some 4242 ∧
    c1Trace.app.status = AppStatus.stopping ∧
    ¬ (c1Trace.app.pid ≠ none ↔ c1Trace.app.status = AppStatus.running) := by
  refine ⟨rfl, ?_, rfl, rfl, by decide⟩
  exact Reach.tail (Reach.tail (Reach.tail (Reach.refl demoRegistered)
    (Step.start ctxGood true)) (Step.started 4242 17)) (Step.stop false false false true)

/-- C1 (amended): along every sequence of start/stop/exit operations from a
freshly registered application, status `running` implies `pid` and
`start_time` are both set, `pid` and `start_time` are always set or unset
together, and status `stopped` implies `pid` is unset; the converse
direction of the claimed biconditional fails, because after a stop request
(and until the exit notification is processed) `pid` remains set while the
status is already `stopping` (or an `error`/`not_installed` status from a
failed re-validation). -/
theorem pid_running_invariant (ctx0 : ValidationCtx) (a0 : ApplicationInfo)
    (s0 s : MonState)
    (hreg : addApplication ctx0 a0 = some s0)
    (hpid : a0.pid = none) (hst : a0.startTime = none)
    (hstatus : a0.status = AppStatus.stopped)
    (hreach : Reach s0 s) : PidInv s := by
  have ha0 : PidInvA a0 :=
    ⟨fun h => by simp [hstatus] at h, by simp [hpid, hst], fun _ => hpid⟩
  have hinv0 : PidInv s0 := by
    simp only [addApplication] at hreg
    by_cases hv : (validateApplication ctx0 a0).1
    · simp [hv] at hreg
      subst hreg
      exact pidInvA_validate ctx0 a0 ha0
    · simp [hv] at hreg
  clear hreg hpid hst hstatus ha0
  induction hreach with
  | refl => exact hinv0
  | tail _ hstep ih => exact pidInv_step ih hstep

theorem pid_running_invariant_witness :
    addApplication ctxGood demoApp = some demoRegistered ∧
    demoApp.pid = none ∧ demoApp.startTime = none ∧
    demoApp.status = AppStatus.stopped ∧
    PidInv c1Trace :=
  ⟨rfl, rfl, rfl, rfl,
    pid_running_invariant ctxGood demoApp demoRegistered c1Trace rfl rfl rfl rfl
      (Reach.tail (Reach.tail (Reach.tail (Reach.refl demoRegistered)
        (Step.start ctxGood true)) (Step.started 4242 17))
        (Step.stop false false false true))⟩

/-- The set of dynamic-linker/CGI variables blocked by
`ProcessMonitor._is_safe_env_var`. -/
def dangerousVars : List String :=
  ["LD_PRELOAD", "LD_LIBRARY_PATH", "DYLD_INSERT_LIBRARIES",
   "DYLD_LIBRARY_PATH", "PATH_INFO", "SCRIPT_NAME"]

/-- The Qt debug variables blocked by `ProcessMonitor._is_safe_env_var`. -/
def qtDebugVars : List String :=
  ["QT_DEBUG_PLUGINS", "QT_LOGGING_RULES", "QT_LOGGING_TO_CONSOLE"]

/-- Mirrors `ProcessMonitor._is_safe_env_var`. -/
def isSafeEnvVar (key : String) : Bool :=
  !(dangerousVars.contains key) && !(qtDebugVars.contains key)

/-- `QProcessEnvironment.insert`: sets the variable, overwriting any
previous value. -/
def envInsert (env : List (String × String)) (k v : String) :
    List (String × String) :=
  if env.any (fun p => p.1 == k) then
    env.map (fun p => if p.1 == k then (k, v) else p)
  else env ++ [(k, v)]

/-- `QProcessEnvironment.value(key, default)`. -/
def envValue (env : List (String × String)) (k dflt : String) : String :=
  match env.find? (fun p => p.1 == k) with
  | some p => p.2
  | none => dflt

/-- One pass of `for key, value in …: if self._is_safe_env_var(key):
env.insert(key, value)`. -/
def envCopySafe (vars : List (String × String)) (init : List (String × String)) :
    List (String × String) :=
  vars.foldl (fun e kv => if isSafeEnvVar kv.1 then envInsert e kv.1 kv.2 else e) init

/-- Mirrors the environment-construction block of
`ProcessMonitor.start_application`: a fresh (empty) `QProcessEnvironment`,
all safe parent variables copied in, safe per-application overrides merged
on top, then the `PYTHONPATH` adjustment for Python scripts
(`projectRoot` is the absolute parent directory of the executable and
`pathSep` is `os.pathsep`). -/
def buildEnvironment (parentEnv overrides : List (String × String))
    (isPy : Bool) (projectRoot pathSep : String) : List (String × String) :=
  let env := envCopySafe parentEnv []
  let env := envCopySafe overrides env
  if isPy then
    let pythonPath := envValue env "PYTHONPATH" ""
    let newPath := if pythonPath != "" then projectRoot ++ pathSep ++ pythonPath
                   else projectRoot
    envInsert env "PYTHONPATH" newPath
  else env

/-- Keys of an environment. -/
def envKeys (env : List (String × String)) : List String := env.map Prod.fst

lemma envCopySafe_nil (init : List (String × String)) :
    envCopySafe [] init = init := rfl

lemma envCopySafe_cons (kv : String × String) (rest : List (String × String))
    (init : List (String × String)) :
    envCopySafe (kv :: rest) init =
      envCopySafe rest (if isSafeEnvVar kv.1 then envInsert init kv.1 kv.2 else init) := rfl

lemma envKeys_envInsert_superset (e : List (String × String)) (k v k' : String)
    (h : k' ∈ envKeys e) : k' ∈ envKeys (envInsert e k v) := by
  unfold envInsert envKeys at *
  split_ifs
  · simp only [List.mem_map] at h ⊢
    obtain ⟨p, hp, hpk⟩ := h
    refine ⟨if p.1 == k then (k, v) else p, ⟨p, hp, rfl⟩, ?_⟩
    by_cases hc : p.1 = k
    · simp [hc, ← hpk]
    · have hck : ¬ k' = k := by rw [← hpk]; exact hc
      simp [hck, hpk, hc]
  · simp only [List.map_append, List.mem_append]
    exact Or.inl h

lemma envKeys_envInsert_elim (e : List (String × String)) (k v k' : String)
    (h : k' ∈ envKeys (envInsert e k v)) : k' ∈ envKeys e ∨ k' = k := by
  unfold envInsert envKeys at *
  split_ifs at h
  · simp only [List.map_map, List.mem_map, Function.comp] at h
    obtain ⟨p, hp, hpk⟩ := h
    by_cases hc : p.1 = k
    · rw [if_pos (by simpa using hc)] at hpk
      exact Or.inr hpk.symm
    · rw [if_neg (by simpa using hc)] at hpk
      exact Or.inl (List.mem_map.mpr ⟨p, hp, hpk⟩)
  · simp only [List.map_append, List.mem_append, List.map_cons, List.map_nil,
      List.mem_singleton] at h
    rcases h with h | h
    · exact Or.inl h
    · exact Or.inr h

lemma envKeys_envInsert_self (e : List (String × String)) (k v : String) :
    k ∈ envKeys (envInsert e k v) := by
  unfold envInsert envKeys
  split_ifs with hc
  · simp only [List.any_eq_true] at hc
    obtain ⟨p, hp, hpk⟩ := hc
    simp only [List.mem_map]
    exact ⟨if p.1 == k then (k, v) else p, ⟨p, hp, rfl⟩, by simp [hpk]⟩
  · simp

lemma envKeys_envCopySafe_superset (vars : List (String × String))
    (init : List (String × String)) (k' : String) (h : k' ∈ envKeys init) :
    k' ∈ envKeys (envCopySafe vars init) := by
  induction vars generalizing init with
  | nil => exact h
  | cons kv rest ih =>
    rw [envCopySafe_cons]
    by_cases hs : isSafeEnvVar kv.1
    · rw [if_pos hs]
      exact ih _ (envKeys_envInsert_superset init kv.1 kv.2 k' h)
    · rw [if_neg hs]
      exact ih _ h

lemma envKeys_envCopySafe_elim (vars : List (String × String))
    (init : List (String × String)) (k' : String)
    (h : k' ∈ envKeys (envCopySafe vars init)) :
    k' ∈ envKeys init ∨ isSafeEnvVar k' = true := by
  induction vars generalizing init with
  | nil => exact Or.inl h
  | cons kv rest ih =>
    rw [envCopySafe_cons] at h
    by_cases hs : isSafeEnvVar kv.1
    · rw [if_pos hs] at h
      rcases ih _ h with h2 | h2
      · rcases envKeys_envInsert_elim init kv.1 kv.2 k' h2 with h3 | h3
        · exact Or.inl h3
        · exact Or.inr (h3 ▸ hs)
      · exact Or.inr h2
    · rw [if_neg hs] at h
      exact ih _ h

lemma envKeys_envCopySafe_mem (vars : List (String × String))
    (init : List (String × String)) (kv : String × String)
    (hmem : kv ∈ vars) (hsafe : isSafeEnvVar kv.1 = true) :
    kv.1 ∈ envKeys (envCopySafe vars init) := by
  induction vars generalizing init with
  | nil => cases hmem
  | cons hd rest ih =>
    rw [envCopySafe_cons]
    rcases List.mem_cons.mp hmem with heq | htl
    · subst heq
      rw [if_pos hsafe]
      exact envKeys_envCopySafe_superset rest _ kv.1
        (envKeys_envInsert_self init kv.1 kv.2)
    · by_cases hs : isSafeEnvVar hd.1
      · rw [if_pos hs]
        exact ih _ htl
      · rw [if_neg hs]
        exact ih _ htl

/-- C7: the environment passed to every started child process contains no
variable from the fixed denylist (`LD_PRELOAD`, `LD_LIBRARY_PATH`,
`DYLD_INSERT_LIBRARIES`, `DYLD_LIBRARY_PATH`, `PATH_INFO`, `SCRIPT_NAME`,
`QT_DEBUG_PLUGINS`, `QT_LOGGING_RULES`, `QT_LOGGING_TO_CONSOLE`), whether
it comes from the parent environment or from the per-application
overrides, and every parent variable not on the denylist is present in
the child environment. -/
theorem child_environment_denylist (parentEnv overrides : List (String × String))
    (isPy : Bool) (projectRoot pathSep : String) (k : String) :
    (k ∈ dangerousVars ∨ k ∈ qtDebugVars →
      k ∉ envKeys (buildEnvironment parentEnv overrides isPy projectRoot pathSep)) ∧
    (k ∈ envKeys parentEnv → k ∉ dangerousVars → k ∉ qtDebugVars →
      k ∈ envKeys (buildEnvironment parentEnv overrides isPy projectRoot pathSep)) := by
  have hsafe_iff : isSafeEnvVar k = false ↔ (k ∈ dangerousVars ∨ k ∈ qtDebugVars) := by
    simp [isSafeEnvVar, List.contains_eq_any_beq, List.any_eq_true]
    tauto
  constructor
  · intro hden hmem
    have hk : isSafeEnvVar k = false := hsafe_iff.mpr hden
    unfold buildEnvironment at hmem
    have hbase : ∀ h2 : k ∈ envKeys (envCopySafe overrides (envCopySafe parentEnv [])),
        False := by
      intro h2
      rcases envKeys_envCopySafe_elim _ _ _ h2 with h3 | h3
      · rcases envKeys_envCopySafe_elim _ _ _ h3 with h4 | h4
        · simp [envKeys] at h4
        · simp [hk] at h4
      · simp [hk] at h3
    by_cases hpy : isPy
    · simp only [hpy, if_pos] at hmem
      rcases envKeys_envInsert_elim _ _ _ _ hmem with h2 | h2
      · exact hbase h2
      · subst h2
        simp [isSafeEnvVar, dangerousVars, qtDebugVars] at hk
    · simp only [hpy, Bool.false_eq_true, if_neg, not_false_iff] at hmem
      exact hbase (by simpa using hmem)
  · intro hmem hd hq
    have hk : isSafeEnvVar k = true := by
      rcases hkf : isSafeEnvVar k with _ | _
      · exact absurd (hsafe_iff.mp hkf) (by tauto)
      · rfl
    simp only [envKeys, List.mem_map] at hmem
    obtain ⟨p, hp, hpk⟩ := hmem
    have h1 : k ∈ envKeys (envCopySafe parentEnv []) := by
      have := envKeys_envCopySafe_mem parentEnv [] p hp (by simpa [hpk] using hk)
      simpa [hpk] using this
    have h2 : k ∈ envKeys (envCopySafe overrides (envCopySafe parentEnv [])) :=
      envKeys_envCopySafe_superset overrides _ k h1
    unfold buildEnvironment
    by_cases hpy : isPy
    · simp only [hpy, if_pos]
      exact envKeys_envInsert_superset _ _ _ _ h2
    · simpa [hpy] using h2

theorem child_environment_denylist_witness :
    ("LD_PRELOAD" ∈ dangerousVars ∨ "LD_PRELOAD" ∈ qtDebugVars) ∧
    "LD_PRELOAD" ∉ envKeys (buildEnvironment
      [("LD_PRELOAD", "/tmp/evil.so"), ("HOME", "/home/user")]
      [("QT_DEBUG_PLUGINS", "1")] false "/opt/demo" ":") ∧
    "HOME" ∈ envKeys (buildEnvironment
      [("LD_PRELOAD", "/tmp/evil.so"), ("HOME", "/home/user")]
      [("QT_DEBUG_PLUGINS", "1")] false "/opt/demo" ":") :=
  ⟨Or.inl (by decide),
   (child_environment_denylist
      [("LD_PRELOAD", "/tmp/evil.so"), ("HOME", "/home/user")]
      [("QT_DEBUG_PLUGINS", "1")] false "/opt/demo" ":" "LD_PRELOAD").1
     (Or.inl (by decide)),
   (child_environment_denylist
      [("LD_PRELOAD", "/tmp/evil.so"), ("HOME", "/home/user")]
      [("QT_DEBUG_PLUGINS", "1")] false "/opt/demo" ":" "HOME").2
     (by decide) (by decide) (by decide)⟩

/-! ## Metrics collector (system_status_tab.py) -/

/-- `psutil.disk_io_counters()` fields used by the collector. -/
structure DiskCounters where
  readBytes : Int
  writeBytes : Int
deriving DecidableEq, Repr

/-- `psutil.net_io_counters()` fields used by the collector. -/
structure NetCounters where
  bytesSent : Int
  bytesRecv : Int
deriving DecidableEq, Repr

/-- The previous-sample cache of `MetricsCollector` (`previous_disk_io`,
`previous_network_io`, `previous_time`), all `None` after `__init__`. -/
structure CollectorState where
  previousDiskIo : Option DiskCounters
  previousNetworkIo : Option NetCounters
  previousTime : Option ℚ
deriving DecidableEq, Repr

def initCollectorState : CollectorState :=
  { previousDiskIo := none, previousNetworkIo := none, previousTime := none }

/-- Mirrors `MetricsCollector._safe_get_disk_io`: returns the reported
`(read, write)` byte rates and the new `previous_disk_io` cache.  `diskIo`
is the value of `psutil.disk_io_counters()` (`None` when unavailable;
the exception path also reports `(0, 0)` without touching the cache).
`int(max(0, rate))` on the non-negative clamped rate is the floor. -/
def safeGetDiskIo (st : CollectorState) (currentTime : ℚ)
    (diskIo : Option DiskCounters) : (Int × Int) × Option DiskCounters :=
  match diskIo with
  | none => ((0, 0), st.previousDiskIo)
  | some cur =>
    match st.previousDiskIo, st.previousTime with
    | some prev, some pt =>
      let timeDelta := currentTime - pt
      if timeDelta > 0 then
        let readRate : ℚ := ((cur.readBytes : ℚ) - (prev.readBytes : ℚ)) / timeDelta
        let writeRate : ℚ := ((cur.writeBytes : ℚ) - (prev.writeBytes : ℚ)) / timeDelta
        ((⌊max 0 readRate⌋, ⌊max 0 writeRate⌋), some cur)
      else ((0, 0), some cur)
    | _, _ => ((0, 0), some cur)

/-- Mirrors `MetricsCollector._safe_get_network_io`. -/
def safeGetNetworkIo (st : CollectorState) (currentTime : ℚ)
    (networkIo : Option NetCounters) : (Int × Int) × Option NetCounters :=
  match networkIo with
  | none => ((0, 0), st.previousNetworkIo)
  | some cur =>
    match st.previousNetworkIo, st.previousTime with
    | some prev, some pt =>
      let timeDelta := currentTime - pt
      if timeDelta > 0 then
        let sentRate : ℚ := ((cur.bytesSent : ℚ) - (prev.bytesSent : ℚ)) / timeDelta
        let recvRate : ℚ := ((cur.bytesRecv : ℚ) - (prev.bytesRecv : ℚ)) / timeDelta
        ((⌊max 0 sentRate⌋, ⌊max 0 recvRate⌋), some cur)
      else ((0, 0), some cur)
    | _, _ => ((0, 0), some cur)

/-- The I/O-rate fields of one emitted `PerformanceMetrics` sample. -/
structure IOSample where
  diskReadBytes : Int
  diskWriteBytes : Int
  networkSent : Int
  networkRecv : Int
deriving DecidableEq, Repr

/-- Mirrors the I/O part of `MetricsCollector._collect_metrics`: both safe
getters run against the same `previous_time`, and `previous_time` is then
set to `current_time`. -/
def collectIORates (st : CollectorState) (now : ℚ)
    (disk : Option DiskCounters) (net : Option NetCounters) :
    IOSample × CollectorState :=
  let d := safeGetDiskIo st now disk
  let n := safeGetNetworkIo st now net
  (⟨d.1.1, d.1.2, n.1.1, n.1.2⟩,
   { previousDiskIo := d.2, previousNetworkIo := n.2, previousTime := some now })

/-- C4: the first sample after initialization (no cached counters) reports
zero disk and network I/O rates; on any later tick with cached previous
counters, a cached previous time, positive elapsed time and monotone
cumulative counters, the reported rate is (current counter − previous
counter) / elapsed seconds, rounded down to an integer. -/
theorem metrics_first_tick_zero_then_rate :
    (∀ (now : ℚ) (disk : Option DiskCounters) (net : Option NetCounters),
      (collectIORates initCollectorState now disk net).1 = ⟨0, 0, 0, 0⟩) ∧
    (∀ (dp dc : DiskCounters) (np nc : NetCounters) (t0 now : ℚ),
      t0 < now →
      dp.readBytes ≤ dc.readBytes → dp.writeBytes ≤ dc.writeBytes →
      np.bytesSent ≤ nc.bytesSent → np.bytesRecv ≤ nc.bytesRecv →
      (collectIORates ⟨some dp, some np, some t0⟩ now (some dc) (some nc)).1 =
        ⟨⌊((dc.readBytes : ℚ) - dp.readBytes) / (now - t0)⌋,
         ⌊((dc.writeBytes : ℚ) - dp.writeBytes) / (now - t0)⌋,
         ⌊((nc.bytesSent : ℚ) - np.bytesSent) / (now - t0)⌋,
         ⌊((nc.bytesRecv : ℚ) - np.bytesRecv) / (now - t0)⌋⟩) := by
  constructor
  · intro now disk net
    cases disk <;> cases net <;> rfl
  · intro dp dc np nc t0 now ht h1 h2 h3 h4
    have hΔ : (0 : ℚ) < now - t0 := sub_pos.mpr ht
    have e1 : max 0 (((dc.readBytes : ℚ) - dp.readBytes) / (now - t0)) =
        ((dc.readBytes : ℚ) - dp.readBytes) / (now - t0) :=
      max_eq_right (div_nonneg (by exact_mod_cast sub_nonneg.mpr h1) hΔ.le)
    have e2 : max 0 (((dc.writeBytes : ℚ) - dp.writeBytes) / (now - t0)) =
        ((dc.writeBytes : ℚ) - dp.writeBytes) / (now - t0) :=
      max_eq_right (div_nonneg (by exact_mod_cast sub_nonneg.mpr h2) hΔ.le)
    have e3 : max 0 (((nc.bytesSent : ℚ) - np.bytesSent) / (now - t0)) =
        ((nc.bytesSent : ℚ) - np.bytesSent) / (now - t0) :=
      max_eq_right (div_nonneg (by exact_mod_cast sub_nonneg.mpr h3) hΔ.le)
    have e4 : max 0 (((nc.bytesRecv : ℚ) - np.bytesRecv) / (now - t0)) =
        ((nc.bytesRecv : ℚ) - np.bytesRecv) / (now - t0) :=
      max_eq_right (div_nonneg (by exact_mod_cast sub_nonneg.mpr h4) hΔ.le)
    simp only [collectIORates, safeGetDiskIo, safeGetNetworkIo, if_pos hΔ,
      gt_iff_lt, e1, e2, e3, e4]

theorem metrics_first_tick_zero_then_rate_witness :
    (collectIORates initCollectorState 1 (some ⟨1000, 500⟩) (some ⟨300, 100⟩)).1
      = ⟨0, 0, 0, 0⟩ ∧
    (collectIORates ⟨some ⟨0, 0⟩, some ⟨0, 0⟩, some 0⟩ 2
        (some ⟨1000, 500⟩) (some ⟨300, 100⟩)).1 = ⟨500, 250, 150, 50⟩ := by
  constructor
  · exact metrics_first_tick_zero_then_rate.1 1 (some ⟨1000, 500⟩) (some ⟨300, 100⟩)
  · have h := metrics_first_tick_zero_then_rate.2 ⟨0, 0⟩ ⟨1000, 500⟩ ⟨0, 0⟩ ⟨300, 100⟩
      0 2 (by norm_num) (by norm_num) (by norm_num) (by norm_num) (by norm_num)
    rw [h]
    norm_num

lemma safeGetDiskIo_nonneg (st : CollectorState) (now : ℚ)
    (disk : Option DiskCounters) :
    0 ≤ (safeGetDiskIo st now disk).1.1 ∧ 0 ≤ (safeGetDiskIo st now disk).1.2 := by
  rcases disk with _ | cur
  · exact ⟨le_refl 0, le_refl 0⟩
  · rcases hd : st.previousDiskIo with _ | prev <;>
      rcases hp : st.previousTime with _ | pt <;>
      simp only [safeGetDiskIo, hd, hp]
    · exact ⟨le_refl 0, le_refl 0⟩
    · exact ⟨le_refl 0, le_refl 0⟩
    · exact ⟨le_refl 0, le_refl 0⟩
    · split_ifs
      · exact ⟨Int.le_floor.mpr (by exact_mod_cast le_max_left 0 _),
               Int.le_floor.mpr (by exact_mod_cast le_max_left 0 _)⟩
      · exact ⟨le_refl 0, le_refl 0⟩

lemma safeGetNetworkIo_nonneg (st : CollectorState) (now : ℚ)
    (net : Option NetCounters) :
    0 ≤ (safeGetNetworkIo st now net).1.1 ∧ 0 ≤ (safeGetNetworkIo st now net).1.2 := by
  rcases net with _ | cur
  · exact ⟨le_refl 0, le_refl 0⟩
  · rcases hd : st.previousNetworkIo with _ | prev <;>
      rcases hp : st.previousTime with _ | pt <;>
      simp only [safeGetNetworkIo, hd, hp]
    · exact ⟨le_refl 0, le_refl 0⟩
    · exact ⟨le_refl 0, le_refl 0⟩
    · exact ⟨le_refl 0, le_refl 0⟩
    · split_ifs
      · exact ⟨Int.le_floor.mpr (by exact_mod_cast le_max_left 0 _),
               Int.le_floor.mpr (by exact_mod_cast le_max_left 0 _)⟩
      · exact ⟨le_refl 0, le_refl 0⟩

/-- C9: every emitted sample reports non-negative disk and network rates,
and when a cumulative counter decreases between ticks the corresponding
rate is clamped to zero. -/
theorem metrics_rates_nonneg_and_clamped :
    (∀ (st : CollectorState) (now : ℚ) (disk : Option DiskCounters)
        (net : Option NetCounters),
      0 ≤ (collectIORates st now disk net).1.diskReadBytes ∧
      0 ≤ (collectIORates st now disk net).1.diskWriteBytes ∧
      0 ≤ (collectIORates st now disk net).1.networkSent ∧
      0 ≤ (collectIORates st now disk net).1.networkRecv) ∧
    (∀ (dp dc : DiskCounters) (pn : Option NetCounters) (t0 now : ℚ),
      t0 < now → dc.readBytes < dp.readBytes →
      (safeGetDiskIo ⟨some dp, pn, some t0⟩ now (some dc)).1.1 = 0) ∧
    (∀ (np nc : NetCounters) (pd : Option DiskCounters) (t0 now : ℚ),
      t0 < now → nc.bytesRecv < np.bytesRecv →
      (safeGetNetworkIo ⟨pd, some np, some t0⟩ now (some nc)).1.2 = 0) := by
  refine ⟨?_, ?_, ?_⟩
  · intro st now disk net
    obtain ⟨d1, d2⟩ := safeGetDiskIo_nonneg st now disk
    obtain ⟨n1, n2⟩ := safeGetNetworkIo_nonneg st now net
    exact ⟨d1, d2, n1, n2⟩
  · intro dp dc pn t0 now ht hlt
    have hΔ : (0 : ℚ) < now - t0 := sub_pos.mpr ht
    have hrate : ((dc.readBytes : ℚ) - dp.readBytes) / (now - t0) ≤ 0 :=
      div_nonpos_of_nonpos_of_nonneg
        (by exact_mod_cast sub_nonpos.mpr hlt.le) hΔ.le
    simp only [safeGetDiskIo, if_pos hΔ, gt_iff_lt]
    rw [max_eq_left hrate]
    exact Int.floor_zero
  · intro np nc pd t0 now ht hlt
    have hΔ : (0 : ℚ) < now - t0 := sub_pos.mpr ht
    have hrate : ((nc.bytesRecv : ℚ) - np.bytesRecv) / (now - t0) ≤ 0 :=
      div_nonpos_of_nonpos_of_nonneg
        (by exact_mod_cast sub_nonpos.mpr hlt.le) hΔ.le
    simp only [safeGetNetworkIo, if_pos hΔ, gt_iff_lt]
    rw [max_eq_left hrate]
    exact Int.floor_zero

theorem metrics_rates_nonneg_and_clamped_witness :
    (0 ≤ (collectIORates ⟨some ⟨100, 100⟩, some ⟨100, 100⟩, some 0⟩ 2
        (some ⟨40, 400⟩) (some ⟨400, 40⟩)).1.diskReadBytes) ∧
    (safeGetDiskIo ⟨some ⟨100, 100⟩, some ⟨100, 100⟩, some 0⟩ 2
        (some ⟨40, 400⟩)).1.1 = 0 ∧
    (safeGetNetworkIo ⟨some ⟨100, 100⟩, some ⟨100, 100⟩, some 0⟩ 2
        (some ⟨400, 40⟩)).1.2 = 0 :=
  ⟨(metrics_rates_nonneg_and_clamped.1 ⟨some ⟨100, 100⟩, some ⟨100, 100⟩, some 0⟩ 2
      (some ⟨40, 400⟩) (some ⟨400, 40⟩)).1,
   metrics_rates_nonneg_and_clamped.2.1 ⟨100, 100⟩ ⟨40, 400⟩
      (some ⟨100, 100⟩) 0 2 (by norm_num) (by norm_num),
   metrics_rates_nonneg_and_clamped.2.2 ⟨100, 100⟩ ⟨400, 40⟩
      (some ⟨100, 100⟩) 0 2 (by norm_num) (by norm_num)⟩

/-! ## Configuration manager (config.py)

The configuration dataclasses are embedded field by field; Python ints are
`Int`, strings are `String`, `Optional` fields are `Option`.  The
`custom_settings : Dict[str, Any]` overlay is modelled as an association
list of string scalars (a JSON object of scalars round-trips losslessly
through `json.dump`/`json.load`, and `default=str` never fires on it). -/

/-- Mirrors the `UIConfig` dataclass with its declared defaults. -/
structure UIConfig where
  theme : String := "dark"
  font_family : String := "Segoe UI"
  font_size : Int := 10
  window_width : Int := 1200
  window_height : Int := 800
  window_maximized : Bool := false
  window_x : Option Int := none
  window_y : Option Int := none
  animation_enabled : Bool := true
  animation_duration : Int := 200
  show_splash : Bool := true
  minimize_to_tray : Bool := true
  close_to_tray : Bool := true
  confirm_exit : Bool := true
  remember_window_state : Bool := true
  auto_save_interval : Int := 300
deriving DecidableEq, Repr

/-- Mirrors the `LoggingConfig` dataclass. -/
structure LoggingConfig where
  level : String := "INFO"
  file_enabled : Bool := true
  console_enabled : Bool := true
  max_file_size_mb : Int := 10
  backup_count : Int := 5
  format : String := "%(asctime)s - %(name)s - %(levelname)s - %(message)s"
  date_format : String := "%Y-%m-%d %H:%M:%S"
deriving DecidableEq, Repr

/-- Mirrors the `ApplicationConfig` dataclass. -/
structure ApplicationConfig where
  auto_start_monitoring : Bool := false
  update_check_frequency : String := "weekly"
  update_check_enabled : Bool := true
  monitor_interval : Int := 1000
  crash_reporting : Bool := true
  performance_mode : Bool := false
  debug_mode : Bool := false
  startup_tab : String := "Dashboard"
  background_monitoring : Bool := true
deriving DecidableEq, Repr

/-- Mirrors the `SecurityConfig` dataclass. -/
structure SecurityConfig where
  require_admin_for_apps : Bool := false
  allow_external_apps : Bool := true
  sandbox_mode : Bool := false
  log_sensitive_data : Bool := false
deriving DecidableEq, Repr

/-- Mirrors the `NotificationConfig` dataclass. -/
structure NotificationConfig where
  enabled : Bool := true
  show_app_status : Bool := true
  show_system_alerts : Bool := true
  show_updates : Bool := true
  duration : Int := 5000
  position : String := "bottom_right"
deriving DecidableEq, Repr

/-- Mirrors the root `AppConfig` dataclass. -/
structure AppConfig where
  ui : UIConfig := {}
  logging : LoggingConfig := {}
  application : ApplicationConfig := {}
  security : SecurityConfig := {}
  notifications : NotificationConfig := {}
  version : String := "2.0.0"
  first_run : Bool := true
  last_updated : Option String := none
  custom_settings : List (String × String) := []
deriving DecidableEq, Repr

/-- The on-disk configuration document.  `dataclasses.asdict` always emits
every declared field, so a document produced by `save_config` has exactly
this shape (a nested JSON object with all keys present). -/
structure ConfigData where
  ui : UIConfig
  logging : LoggingConfig
  application : ApplicationConfig
  security : SecurityConfig
  notifications : NotificationConfig
  version : String
  first_run : Bool
  last_updated : Option String
  custom_settings : List (String × String)
deriving DecidableEq, Repr

/-- `dataclasses.asdict` on an `AppConfig` (shape-preserving deep copy). -/
def asdictConfig (c : AppConfig) : ConfigData :=
  { ui := c.ui, logging := c.logging, application := c.application,
    security := c.security, notifications := c.notifications,
    version := c.version, first_run := c.first_run,
    last_updated := c.last_updated, custom_settings := c.custom_settings }

/-- Lexicographic comparison of character lists by code point. -/
def charListLt : List Char → List Char → Bool
  | [], [] => false
  | [], _ :: _ => true
  | _ :: _, [] => false
  | a :: as, b :: bs => if a < b then true else if b < a then false else charListLt as bs

/-- Python `str.__lt__`: lexicographic comparison by code point. -/
def pyStrLt (a b : String) : Bool := charListLt a.data b.data

/-- Mirrors `ConfigManager._migrate_config`.  The v1 migrations move
top-level `theme`/`log_level`/`window_width`/`window_height` keys into
their sections; a document produced by `asdict` never contains those
top-level keys, so on such documents only the version tag is rewritten. -/
def migrateConfig (d : ConfigData) : ConfigData :=
  if pyStrLt d.version "2.0.0" then { d with version := "2.0.0" } else d

/-- Mirrors `ConfigManager._validate_config_data`: each out-of-range
numeric field is reset to the rule minimum, and each invalid enum field is
reset to the first valid value. -/
def validateConfigData (d : ConfigData) : ConfigData :=
  let ui := { d.ui with
    font_size := if d.ui.font_size < 8 || d.ui.font_size > 72 then 8
                 else d.ui.font_size,
    window_width := if d.ui.window_width < 800 || d.ui.window_width > 7680 then 800
                    else d.ui.window_width,
    window_height := if d.ui.window_height < 600 || d.ui.window_height > 4320 then 600
                     else d.ui.window_height,
    animation_duration := if d.ui.animation_duration < 50 || d.ui.animation_duration > 2000
                          then 50 else d.ui.animation_duration,
    theme := if ["dark", "light", "auto", "high_contrast"].contains d.ui.theme
             then d.ui.theme else "dark" }
  let lg := { d.logging with
    max_file_size_mb := if d.logging.max_file_size_mb < 1 || d.logging.max_file_size_mb > 1000
                        then 1 else d.logging.max_file_size_mb,
    backup_count := if d.logging.backup_count < 1 || d.logging.backup_count > 50 then 1
                    else d.logging.backup_count,
    level := if ["DEBUG", "INFO", "WARNING", "ERROR", "CRITICAL"].contains d.logging.level
             then d.logging.level else "DEBUG" }
  let app := { d.application with
    monitor_interval := if d.application.monitor_interval < 100 ||
                           d.application.monitor_interval > 60000
                        then 100 else d.application.monitor_interval,
    update_check_frequency := if ["never", "daily", "weekly", "monthly"].contains
                                   d.application.update_check_frequency
                              then d.application.update_check_frequency else "never" }
  let nt := { d.notifications with
    duration := if d.notifications.duration < 1000 || d.notifications.duration > 30000
                then 1000 else d.notifications.duration,
    position := if ["bottom_right", "bottom_left", "top_right", "top_left"].contains
                     d.notifications.position
                then d.notifications.position else "bottom_right" }
  { d with ui := ui, logging := lg, application := app, notifications := nt }

/-- Mirrors `ConfigManager._dict_to_config`.  The source builds each
section with explicit `.get(key, default)` calls; on an `asdict`-shaped
document every read key is present, but `window_x` and `window_y` are
never read, so they take the `UIConfig` dataclass defaults (`None`). -/
def dictToConfig (d : ConfigData) : AppConfig :=
  { ui := { theme := d.ui.theme,
            font_family := d.ui.font_family,
            font_size := d.ui.font_size,
            window_width := d.ui.window_width,
            window_height := d.ui.window_height,
            window_maximized := d.ui.window_maximized,
            animation_enabled := d.ui.animation_enabled,
            animation_duration := d.ui.animation_duration,
            show_splash := d.ui.show_splash,
            minimize_to_tray := d.ui.minimize_to_tray,
            close_to_tray := d.ui.close_to_tray,
            confirm_exit := d.ui.confirm_exit,
            remember_window_state := d.ui.remember_window_state,
            auto_save_interval := d.ui.auto_save_interval },
    logging := { level := d.logging.level,
                 file_enabled := d.logging.file_enabled,
                 console_enabled := d.logging.console_enabled,
                 max_file_size_mb := d.logging.max_file_size_mb,
                 backup_count := d.logging.backup_count,
                 format := d.logging.format,
                 date_format := d.logging.date_format },
    application := { auto_start_monitoring := d.application.auto_start_monitoring,
                     update_check_frequency := d.application.update_check_frequency,
                     update_check_enabled := d.application.update_check_enabled,
                     monitor_interval := d.application.monitor_interval,
                     crash_reporting := d.application.crash_reporting,
                     performance_mode := d.application.performance_mode,
                     debug_mode := d.application.debug_mode,
                     startup_tab := d.application.startup_tab,
                     background_monitoring := d.application.background_monitoring },
    security := { require_admin_for_apps := d.security.require_admin_for_apps,
                  allow_external_apps := d.security.allow_external_apps,
                  sandbox_mode := d.security.sandbox_mode,
                  log_sensitive_data := d.security.log_sensitive_data },
    notifications := { enabled := d.notifications.enabled,
                       show_app_status := d.notifications.show_app_status,
                       show_system_alerts := d.notifications.show_system_alerts,
                       show_updates := d.notifications.show_updates,
                       duration := d.notifications.duration,
                       position := d.notifications.position },
    version := d.version,
    first_run := d.first_run,
    last_updated := d.last_updated,
    custom_settings := d.custom_settings }

/-- The document written by `ConfigManager.save_config` at isoformat time
`t`: the metadata update (`last_updated = now`, `first_run = False`)
followed by `asdict`. -/
def renderedSave (t : String) (c : AppConfig) : ConfigData :=
  asdictConfig { c with last_updated := some t, first_run := false }

/-- The configuration object produced by `ConfigManager.load_config` from
an on-disk document: migration, validation, then `_dict_to_config`.  The
subsequent `_apply_env_overrides` is modelled with no `COMMANDCORE_*`
variable set (under which it is the identity), and `_rebuild_cache` only
touches the flattened cache. -/
def loadConfigData (d : ConfigData) : AppConfig :=
  dictToConfig (validateConfigData (migrateConfig d))

/-- `save_config` followed by `load_config`. -/
def saveLoadRoundTrip (t : String) (c : AppConfig) : AppConfig :=
  loadConfigData (renderedSave t c)

/-- A configuration exercising the fields that do not survive the round
trip: a remembered window position, a true first-run flag, and an
out-of-range font size. -/
def c5Config : AppConfig :=
  { ui := { window_x := some 100, window_y := some 50, font_size := 7 },
    first_run := true }

/-- C5 counterexample: saving and reloading does not preserve every
non-timestamp field — `ui.window_x`/`ui.window_y` are reset to `None`
(the loader never reads them), `first_run` is forced to `False` by the
save, and out-of-range numeric values are clamped by load-time
validation. -/
theorem config_roundtrip_counterexample :
    c5Config.ui.window_x = some 100 ∧
    (saveLoadRoundTrip "2025-01-01T00:00:00" c5Config).ui.window_x = none ∧
    c5Config.first_run = true ∧
    (saveLoadRoundTrip "2025-01-01T00:00:00" c5Config).first_run = false ∧
    c5Config.ui.font_size = 7 ∧
    (saveLoadRoundTrip "2025-01-01T00:00:00" c5Config).ui.font_size = 8 := by
  refine ⟨rfl, ?_, rfl, ?_, rfl, ?_⟩ <;> decide

/-- C5 (amended): for every configuration whose saved document passes
migration and validation unchanged (version tag at least `2.0.0`, numeric
fields inside the validation ranges, enum fields valid), saving at time
`t` and reloading yields the same configuration except that
`last_updated` is refreshed to `t`, `first_run` is forced to `False`, and
`ui.window_x`/`ui.window_y` are dropped (reset to `None`); every other
field of every section survives the round trip. -/
theorem config_roundtrip_amended (c : AppConfig) (t : String)
    (hmig : migrateConfig (renderedSave t c) = renderedSave t c)
    (hval : validateConfigData (renderedSave t c) = renderedSave t c) :
    saveLoadRoundTrip t c =
      { c with ui := { c.ui with window_x := none, window_y := none },
               first_run := false, last_updated := some t } := by
  unfold saveLoadRoundTrip loadConfigData
  rw [hmig, hval]
  rfl

theorem config_roundtrip_amended_witness :
    saveLoadRoundTrip "2025-01-01T00:00:00" {} =
      { ui := { window_x := none, window_y := none },
        first_run := false, last_updated := some "2025-01-01T00:00:00" } :=
  config_roundtrip_amended {} "2025-01-01T00:00:00" (by decide) (by decide)

/-! ## Save-path filesystem effects (config.py: `save_config`,
`_create_backup`) -/

/-- The config file as seen by `save_config`: missing, existing but empty
(`st_size == 0`), or holding a document. -/
inductive FileState where
  | missing
  | empty
  | hasData (d : ConfigData)
deriving DecidableEq, Repr

/-- The filesystem slice the save path touches: the config file, the
backup directory, and the process-unique temporary file.  The backup
directory is carried as its name-sorted listing, which is what
`sorted(self.backup_dir.glob("config_backup_*.json"))` returns. -/
structure FsState where
  configFile : FileState
  backups : List (String × ConfigData)
  tempFile : Option ConfigData
deriving DecidableEq, Repr

/-- `config_backup_{timestamp}.json`. -/
def backupName (ts : String) : String := "config_backup_" ++ ts ++ ".json"

/-- Adding one file to the name-sorted backup listing (`shutil.copy2`
overwrites a file that already has the same timestamped name). -/
def insertBackupSorted : List (String × ConfigData) → String → ConfigData →
    List (String × ConfigData)
  | [], n, d => [(n, d)]
  | (m, e) :: rest, n, d =>
    if pyStrLt n m then (n, d) :: (m, e) :: rest
    else if n == m then (n, d) :: rest
    else (m, e) :: insertBackupSorted rest n d

/-- Mirrors `ConfigManager._create_backup` (its caller `save_config` only
invokes it on an existing non-empty config file; the internal
`config_file.exists()` guard is the `missing` case): copy the config file
to `config_backup_{ts}.json`, then delete `backups[:-10]` when more than
10 backups are listed. -/
def createBackup (ts : String) (fs : FsState) : FsState :=
  match fs.configFile with
  | .missing => fs
  | .empty => fs
  | .hasData content =>
    let backups := insertBackupSorted fs.backups (backupName ts) content
    let kept := if backups.length > 10 then backups.drop (backups.length - 10)
                else backups
    { fs with backups := kept }

/-- Mirrors the filesystem effects of one successful `ConfigManager.save_config`
attempt on POSIX (`bts` is the backup timestamp, `t` the isoformat
`last_updated` stamp): back up an existing non-empty config file, write the
rendered document to the temporary file, then atomically rename the
temporary file over the config file (`temp_file.replace(config_file)`),
leaving no temporary file behind. -/
def saveConfigFS (bts t : String) (c : AppConfig) (fs : FsState) :
    Bool × FsState :=
  let fs1 := match fs.configFile with
             | .hasData _ => createBackup bts fs
             | _ => fs
  let d := renderedSave t c
  let fs2 := { fs1 with tempFile := some d }
  let fs3 := { fs2 with configFile := FileState.hasData d, tempFile := none }
  (true, fs3)

lemma charListLt_asymm : ∀ (a b : List Char), charListLt a b = true →
    charListLt b a = false := by
  intro a
  induction a with
  | nil => intro b _; cases b <;> rfl
  | cons x xs ih =>
    intro b hab
    cases b with
    | nil => simp [charListLt] at hab
    | cons y ys =>
      simp only [charListLt] at hab ⊢
      by_cases hxy : x < y
      · rw [if_neg (asymm hxy), if_pos hxy]
      · rw [if_neg hxy] at hab
        by_cases hyx : y < x
        · rw [if_pos hyx] at hab
          cases hab
        · rw [if_neg hyx] at hab
          rw [if_neg hyx, if_neg hxy]
          exact ih ys hab

lemma pyStrLt_asymm (a b : String) (h : pyStrLt a b = true) :
    pyStrLt b a = false := charListLt_asymm a.data b.data h

lemma charListLt_irrefl : ∀ (a : List Char), charListLt a a = false := by
  intro a
  induction a with
  | nil => rfl
  | cons x xs ih => simp only [charListLt, lt_irrefl, if_neg, if_false, ih]

lemma pyStrLt_ne (a b : String) (h : pyStrLt a b = true) : (b == a) = false := by
  by_cases hba : b = a
  · subst hba
    have := charListLt_irrefl b.data
    unfold pyStrLt at h
    rw [this] at h
    cases h
  · simpa using hba

lemma insertBackupSorted_of_all_lt (l : List (String × ConfigData))
    (n : String) (d : ConfigData)
    (h : ∀ p ∈ l, pyStrLt p.1 n = true) :
    insertBackupSorted l n d = l ++ [(n, d)] := by
  induction l with
  | nil => rfl
  | cons p rest ih =>
    obtain ⟨m, e⟩ := p
    have hp : pyStrLt m n = true := h (m, e) (List.mem_cons_self _ _)
    have hlt : ¬ (pyStrLt n m = true) := by simp [pyStrLt_asymm _ _ hp]
    have heq : ¬ ((n == m) = true) := by simp [pyStrLt_ne _ _ hp]
    simp only [insertBackupSorted, if_neg hlt, if_neg heq]
    rw [ih (fun q hq => h q (List.mem_cons_of_mem _ hq))]
    rfl

lemma mem_drop_append_singleton {α : Type} (l : List α) (k : Nat) (x : α)
    (h : k ≤ l.length) : x ∈ List.drop k (l ++ [x]) := by
  induction l generalizing k with
  | nil =>
    have hk : k = 0 := Nat.le_zero.mp h
    subst hk
    simp
  | cons a rest ih =>
    cases k with
    | zero => simp
    | succ k2 =>
      simp only [List.cons_append, List.drop_succ_cons]
      exact ih k2 (Nat.succ_le_succ_iff.mp h)

/-- C8: on every save over an existing non-empty config file, the old
contents are first copied into a fresh timestamped backup, the new
document is written to a temporary file and renamed over the config file
(no temporary file survives), and the backup directory afterwards holds
at most 10 files — exactly the 10 most recent by name when more
accumulated.  Saves that create no backup never grow the directory past
10 either. -/
theorem save_config_backup_rotation (fs : FsState) (bts t : String)
    (c : AppConfig) (d : ConfigData)
    (hexist : fs.configFile = FileState.hasData d)
    (hfresh : ∀ p ∈ fs.backups, pyStrLt p.1 (backupName bts) = true) :
    (saveConfigFS bts t c fs).2.configFile = FileState.hasData (renderedSave t c) ∧
    (saveConfigFS bts t c fs).2.tempFile = none ∧
    (saveConfigFS bts t c fs).2.backups.length ≤ 10 ∧
    (backupName bts, d) ∈ (saveConfigFS bts t c fs).2.backups ∧
    (saveConfigFS bts t c fs).2.backups =
      (if fs.backups.length + 1 > 10
       then (fs.backups ++ [(backupName bts, d)]).drop (fs.backups.length + 1 - 10)
       else fs.backups ++ [(backupName bts, d)]) ∧
    (∀ fs2 : FsState, fs2.backups.length ≤ 10 →
      (saveConfigFS bts t c fs2).2.backups.length ≤ 10) := by
  have hins : insertBackupSorted fs.backups (backupName bts) d
      = fs.backups ++ [(backupName bts, d)] :=
    insertBackupSorted_of_all_lt fs.backups (backupName bts) d hfresh
  have hsave : (saveConfigFS bts t c fs).2 =
      { configFile := FileState.hasData (renderedSave t c),
        backups := (if fs.backups.length + 1 > 10
          then (fs.backups ++ [(backupName bts, d)]).drop (fs.backups.length + 1 - 10)
          else fs.backups ++ [(backupName bts, d)]),
        tempFile := none } := by
    simp only [saveConfigFS, createBackup, hexist, hins, List.length_append,
      List.length_singleton]
  refine ⟨by rw [hsave], by rw [hsave], ?_, ?_, by rw [hsave], ?_⟩
  · rw [hsave]
    simp only
    split_ifs with hlen
    · simp only [List.length_drop, List.length_append, List.length_singleton]
      omega
    · simp only [List.length_append, List.length_singleton]
      omega
  · rw [hsave]
    simp only
    split_ifs with hlen
    · exact mem_drop_append_singleton fs.backups _ _ (by omega)
    · exact List.mem_append_right _ (List.mem_singleton_self _)
  · intro fs2 hlen
    rcases hcf : fs2.configFile with _ | _ | d2
    · simpa [saveConfigFS, createBackup, hcf] using hlen
    · simpa [saveConfigFS, createBackup, hcf] using hlen
    · simp only [saveConfigFS, createBackup, hcf]
      split_ifs with hbig
      · simp only [List.length_drop]
        omega
      · simp only [not_lt] at hbig
        simpa using hbig

theorem save_config_backup_rotation_witness :
    (saveConfigFS "20250101_000000" "2025-01-01T00:00:00" {}
        { configFile := FileState.hasData (renderedSave "2024-12-31T00:00:00" {}),
          backups := [], tempFile := none }).2.configFile
      = FileState.hasData (renderedSave "2025-01-01T00:00:00" {}) ∧
    (backupName "20250101_000000", renderedSave "2024-12-31T00:00:00" {})
      ∈ (saveConfigFS "20250101_000000" "2025-01-01T00:00:00" {}
        { configFile := FileState.hasData (renderedSave "2024-12-31T00:00:00" {}),
          backups := [], tempFile := none }).2.backups ∧
    (saveConfigFS "20250101_000000" "2025-01-01T00:00:00" {}
        { configFile := FileState.hasData (renderedSave "2024-12-31T00:00:00" {}),
          backups := [], tempFile := none }).2.backups.length ≤ 10 := by
  have h := save_config_backup_rotation
    { configFile := FileState.hasData (renderedSave "2024-12-31T00:00:00" {}),
      backups := [], tempFile := none }
    "20250101_000000" "2025-01-01T00:00:00" {} (renderedSave "2024-12-31T00:00:00" {})
    rfl (by intro p hp; cases hp)
  exact ⟨h.1, h.2.2.2.1, h.2.2.1⟩

/-! ## `ConfigManager.set` (config.py)

`set` navigates the live configuration object with `hasattr`/`getattr`/
`setattr`.  The object graph is embedded as a tree: dataclass instances
are attribute nodes, the `custom_settings` dict is a dict node (its keys
are not attributes, so `hasattr` is false on them), and scalar leaves are
primitive nodes (their built-in Python attributes are not modelled). -/

inductive PyVal where
  | int (n : Int)
  | str (s : String)
  | bool (b : Bool)
  | none
deriving DecidableEq, Repr

inductive PyObj where
  | obj (attrs : List (String × PyObj))
  | dict (entries : List (String × PyObj))
  | prim (v : PyVal)
deriving Repr

/-- `hasattr(o, k)`. -/
def hasattrP : PyObj → String → Bool
  | .obj attrs, k => attrs.any (fun p => p.1 == k)
  | _, _ => false

/-- `getattr(o, k)`. -/
def getattrP : PyObj → String → Option PyObj
  | .obj attrs, k => (attrs.find? (fun p => p.1 == k)).map Prod.snd
  | _, _ => Option.none

/-- `setattr(o, k, v)` (only ever called after a successful `hasattr`
check, so it replaces an existing attribute). -/
def setattrP : PyObj → String → PyObj → PyObj
  | .obj attrs, k, v => .obj (attrs.map (fun p => if p.1 == k then (k, v) else p))
  | o, _, _ => o

/-- Python `key.split('.')` (never empty; `"".split('.') == [""]`). -/
def pySplitDot (s : String) : List String := (s.data.splitOn '.').map String.mk

/-- The navigation-and-assignment loop of `ConfigManager.set` as a
functional update: walk `keys[:-1]` through existing attributes, check the
final attribute exists, and set it; `Option.none` is the `return False`
path (unknown intermediate path or unknown final key). -/
def navSet : PyObj → List String → PyObj → Option PyObj
  | _, [], _ => Option.none
  | o, [k], v => if hasattrP o k then some (setattrP o k v) else Option.none
  | o, k :: rest, v =>
    if hasattrP o k then
      match getattrP o k with
      | some child =>
        match navSet child rest v with
        | some child2 => some (setattrP o k child2)
        | Option.none => Option.none
      | Option.none => Option.none
    else Option.none

/-- Whether a dotted path names an existing attribute chain. -/
def pathExists : PyObj → List String → Bool
  | _, [] => false
  | o, [k] => hasattrP o k
  | o, k :: rest => hasattrP o k &&
      (match getattrP o k with
       | some child => pathExists child rest
       | Option.none => false)

/-- Attribute lookup along a dotted path. -/
def getPath : PyObj → List String → Option PyObj
  | o, [] => some o
  | o, k :: rest =>
    match getattrP o k with
    | some child => getPath child rest
    | Option.none => Option.none

/-- `self._config_cache[key] = value`. -/
def cacheSet (cache : List (String × PyObj)) (k : String) (v : PyObj) :
    List (String × PyObj) :=
  if cache.any (fun p => p.1 == k) then
    cache.map (fun p => if p.1 == k then (k, v) else p)
  else cache ++ [(k, v)]

/-- The `ConfigManager` state that `set` touches: the configuration
object, the flattened cache, and the dirty flag. -/
structure CMState where
  config : PyObj
  cache : List (String × PyObj)
  dirty : Bool

/-- Mirrors `ConfigManager.set`: on success the object is updated, the
cache entry for the full dotted key is written, the dirty flag is set and
the change signal is emitted; on an invalid path it logs and returns
`False` with nothing touched. -/
def cmSet (st : CMState) (key : String) (value : PyObj) : Bool × CMState :=
  match navSet st.config (pySplitDot key) value with
  | some cfg2 =>
    (true, { config := cfg2, cache := cacheSet st.cache key value, dirty := true })
  | Option.none => (false, st)

/-- `ks` is an initial segment of `ks2`. -/
def initSeg : List String → List String → Bool
  | [], _ => true
  | _ :: _, [] => false
  | a :: as, b :: bs => a == b && initSeg as bs

lemma getattrP_setattrP_self (o : PyObj) (k : String) (v : PyObj)
    (h : hasattrP o k = true) : getattrP (setattrP o k v) k = some v := by
  cases o with
  | obj attrs =>
    simp only [hasattrP] at h
    simp only [setattrP, getattrP]
    induction attrs with
    | nil => simp at h
    | cons p rest ih =>
      by_cases hp : (p.1 == k) = true
      · have hkv : (((k, v) : String × PyObj).1 == k) = true := beq_self_eq_true k
        simp only [List.map_cons, if_pos hp, List.find?_cons, hkv]
        rfl
      · have hp2 : (p.1 == k) = false := by simpa using hp
        simp only [List.any_cons, hp2, Bool.false_or] at h
        simp only [List.map_cons, if_neg hp]
        simp only [List.find?_cons, hp2]
        exact ih h
  | dict entries => simp [hasattrP] at h
  | prim v0 => simp [hasattrP] at h

lemma getattrP_setattrP_other (o : PyObj) (k : String) (v : PyObj) (k2 : String)
    (h : (k2 == k) = false) : getattrP (setattrP o k v) k2 = getattrP o k2 := by
  have hne : k2 ≠ k := by simpa using h
  cases o with
  | obj attrs =>
    simp only [setattrP, getattrP]
    induction attrs with
    | nil => rfl
    | cons p rest ih =>
      by_cases hp : (p.1 == k) = true
      · have hpk : p.1 = k := by simpa using hp
        have hkk2 : (k == k2) = false :=
          beq_eq_false_iff_ne.mpr (fun e => hne e.symm)
        have hh1 : (((k, v) : String × PyObj).1 == k2) = false := hkk2
        have hh2 : (p.1 == k2) = false := by rw [hpk]; exact hkk2
        simp only [List.map_cons, if_pos hp]
        simp only [List.find?_cons, hh1, hh2]
        exact ih
      · have hp2 : (p.1 == k) = false := by simpa using hp
        by_cases hq : (p.1 == k2) = true
        · simp only [List.map_cons, if_neg hp]
          simp only [List.find?_cons, hq]
        · have hq2 : (p.1 == k2) = false := by simpa using hq
          simp only [List.map_cons, if_neg hp]
          simp only [List.find?_cons, hq2]
          exact ih
  | dict entries => rfl
  | prim v0 => rfl

lemma navSet_nil (o : PyObj) (v : PyObj) : navSet o [] v = Option.none := rfl

lemma navSet_single (o : PyObj) (k : String) (v : PyObj) :
    navSet o [k] v = if hasattrP o k then some (setattrP o k v) else Option.none := rfl

lemma navSet_cons (o : PyObj) (k k2 : String) (rest : List String) (v : PyObj) :
    navSet o (k :: k2 :: rest) v =
      (if hasattrP o k then
        match getattrP o k with
        | some child =>
          (match navSet child (k2 :: rest) v with
           | some child2 => some (setattrP o k child2)
           | Option.none => Option.none)
        | Option.none => Option.none
      else Option.none) := rfl

lemma pathExists_single (o : PyObj) (k : String) :
    pathExists o [k] = hasattrP o k := rfl

lemma pathExists_cons (o : PyObj) (k k2 : String) (rest : List String) :
    pathExists o (k :: k2 :: rest) =
      (hasattrP o k &&
        (match getattrP o k with
         | some child => pathExists child (k2 :: rest)
         | Option.none => false)) := rfl

lemma navSet_none_of_not_pathExists (o : PyObj) (ks : List String) (v : PyObj)
    (h : pathExists o ks = false) : navSet o ks v = Option.none := by
  induction ks generalizing o with
  | nil => rfl
  | cons k rest ih =>
    cases rest with
    | nil =>
      rw [navSet_single]
      rw [pathExists_single] at h
      simp [h]
    | cons k2 rest2 =>
      rw [navSet_cons]
      rw [pathExists_cons] at h
      by_cases hh : hasattrP o k = true
      · rw [hh, Bool.true_and] at h
        rw [if_pos hh]
        rcases hg : getattrP o k with _ | child
        · simp only [hg]
        · simp only [hg] at h ⊢
          simp only [ih child h]
      · simp [hh]

lemma navSet_some_of_pathExists (o : PyObj) (ks : List String) (v : PyObj)
    (h : pathExists o ks = true) : ∃ o2, navSet o ks v = some o2 := by
  induction ks generalizing o with
  | nil => simp [pathExists] at h
  | cons k rest ih =>
    cases rest with
    | nil =>
      rw [pathExists_single] at h
      exact ⟨setattrP o k v, by rw [navSet_single, if_pos h]⟩
    | cons k2 rest2 =>
      rw [pathExists_cons] at h
      have hh : hasattrP o k = true := by
        rcases hx : hasattrP o k with _ | _
        · rw [hx, Bool.false_and] at h; cases h
        · rfl
      rw [hh, Bool.true_and] at h
      rcases hg : getattrP o k with _ | child
      · simp only [hg] at h
        exact Bool.noConfusion h
      · simp only [hg] at h
        obtain ⟨c2, hc2⟩ := ih child h
        refine ⟨setattrP o k c2, ?_⟩
        rw [navSet_cons, if_pos hh]
        simp only [hg, hc2]

lemma getPath_navSet_self (ks : List String) :
    ∀ (o o2 v : PyObj), navSet o ks v = some o2 → getPath o2 ks = some v := by
  induction ks with
  | nil => intro o o2 v h; cases h
  | cons k rest ih =>
    intro o o2 v h
    cases rest with
    | nil =>
      rw [navSet_single] at h
      by_cases hh : hasattrP o k = true
      · rw [if_pos hh] at h
        have he : setattrP o k v = o2 := by simpa using h
        subst he
        simp only [getPath, getattrP_setattrP_self o k v hh]
      · rw [if_neg hh] at h; cases h
    | cons k2 rest2 =>
      rw [navSet_cons] at h
      by_cases hh : hasattrP o k = true
      · rw [if_pos hh] at h
        rcases hg : getattrP o k with _ | child
        · simp only [hg] at h
          exact Option.noConfusion h
        · simp only [hg] at h
          rcases hn : navSet child (k2 :: rest2) v with _ | child2
          · simp only [hn] at h
            exact Option.noConfusion h
          · simp only [hn] at h
            have he : setattrP o k child2 = o2 := by simpa using h
            subst he
            simp only [getPath, getattrP_setattrP_self o k child2 hh]
            exact ih child child2 v hn
      · rw [if_neg hh] at h; cases h

lemma getPath_navSet_frame (ks : List String) :
    ∀ (o o2 v : PyObj), navSet o ks v = some o2 →
    ∀ ks2, initSeg ks ks2 = false → initSeg ks2 ks = false →
    getPath o2 ks2 = getPath o ks2 := by
  induction ks with
  | nil => intro o o2 v h; cases h
  | cons k rest ih =>
    intro o o2 v h ks2 h1 h2
    cases rest with
    | nil =>
      rw [navSet_single] at h
      by_cases hh : hasattrP o k = true
      · rw [if_pos hh] at h
        have he : setattrP o k v = o2 := by simpa using h
        subst he
        cases ks2 with
        | nil => simp [initSeg] at h2
        | cons kh kt =>
          have hkc : (k == kh) = false := by simpa [initSeg] using h1
          have hkh : (kh == k) = false := by
            have hne : ¬ k = kh := by simpa using hkc
            exact beq_eq_false_iff_ne.mpr (fun e => hne e.symm)
          simp only [getPath, getattrP_setattrP_other o k v kh hkh]
      · rw [if_neg hh] at h; cases h
    | cons k2 rest2 =>
      rw [navSet_cons] at h
      by_cases hh : hasattrP o k = true
      · rw [if_pos hh] at h
        rcases hg : getattrP o k with _ | child
        · simp only [hg] at h
          exact Option.noConfusion h
        · simp only [hg] at h
          rcases hn : navSet child (k2 :: rest2) v with _ | child2
          · simp only [hn] at h
            exact Option.noConfusion h
          · simp only [hn] at h
            have he : setattrP o k child2 = o2 := by simpa using h
            subst he
            cases ks2 with
            | nil => simp [initSeg] at h2
            | cons kh kt =>
              by_cases hk : (kh == k) = true
              · have hkk : kh = k := by simpa using hk
                subst hkk
                have h1t : initSeg (k2 :: rest2) kt = false := by
                  simpa [initSeg] using h1
                have h2t : initSeg kt (k2 :: rest2) = false := by
                  simpa [initSeg] using h2
                simp only [getPath, getattrP_setattrP_self o kh child2 hh, hg]
                exact ih child child2 v hn kt h1t h2t
              · have hk2 : (kh == k) = false := by simpa using hk
                simp only [getPath, getattrP_setattrP_other o k child2 kh hk2]
      · rw [if_neg hh] at h; cases h

/-- C10: for every dotted key whose path does not name an existing
attribute chain of the configuration object, `ConfigManager.set` returns
`False` and leaves the object, the flattened cache and the dirty flag
unchanged; for every key whose path does exist, `set` returns `True`,
stores the value at exactly that attribute path (every path diverging
from it reads unchanged), writes the cache entry for that key, and marks
the configuration dirty. -/
theorem config_set_path (root : PyObj) (cache : List (String × PyObj))
    (dirty : Bool) (key : String) (value : PyObj) :
    (pathExists root (pySplitDot key) = false →
      cmSet ⟨root, cache, dirty⟩ key value = (false, ⟨root, cache, dirty⟩)) ∧
    (pathExists root (pySplitDot key) = true →
      (cmSet ⟨root, cache, dirty⟩ key value).1 = true ∧
      (cmSet ⟨root, cache, dirty⟩ key value).2.dirty = true ∧
      (cmSet ⟨root, cache, dirty⟩ key value).2.cache = cacheSet cache key value ∧
      getPath (cmSet ⟨root, cache, dirty⟩ key value).2.config (pySplitDot key)
        = some value ∧
      (∀ ks2, initSeg (pySplitDot key) ks2 = false →
        initSeg ks2 (pySplitDot key) = false →
        getPath (cmSet ⟨root, cache, dirty⟩ key value).2.config ks2
          = getPath root ks2)) := by
  constructor
  · intro h
    simp [cmSet, navSet_none_of_not_pathExists root _ value h]
  · intro h
    obtain ⟨o2, ho2⟩ := navSet_some_of_pathExists root _ value h
    have hcm : cmSet ⟨root, cache, dirty⟩ key value =
        (true, ⟨o2, cacheSet cache key value, true⟩) := by
      simp only [cmSet, ho2]
    rw [hcm]
    exact ⟨rfl, rfl, rfl, getPath_navSet_self _ root o2 value ho2,
           fun ks2 h1 h2 => getPath_navSet_frame _ root o2 value ho2 ks2 h1 h2⟩

/-- A small configuration object of the embedded shape: dataclass
sections as attribute nodes and the `custom_settings` dict as a dict
node. -/
def demoConfigObj : PyObj :=
  .obj [("ui", .obj [("theme", .prim (.str "dark")),
                     ("font_size", .prim (.int 10))]),
        ("version", .prim (.str "2.0.0")),
        ("custom_settings", .dict [("endpoint", .prim (.str "local"))])]

theorem config_set_path_witness :
    pathExists demoConfigObj (pySplitDot "ui.font_size") = true ∧
    (cmSet ⟨demoConfigObj, [], false⟩ "ui.font_size" (.prim (.int 12))).1 = true ∧
    getPath (cmSet ⟨demoConfigObj, [], false⟩ "ui.font_size"
        (.prim (.int 12))).2.config (pySplitDot "ui.font_size")
      = some (.prim (.int 12)) ∧
    pathExists demoConfigObj (pySplitDot "ui.missing") = false ∧
    (cmSet ⟨demoConfigObj, [], false⟩ "ui.missing" (.prim (.int 1))).1 = false ∧
    pathExists demoConfigObj (pySplitDot "custom_settings.endpoint") = false := by
  have hA := (config_set_path demoConfigObj [] false "ui.font_size"
    (PyObj.prim (PyVal.int 12))).2 rfl
  have hB := (config_set_path demoConfigObj [] false "ui.missing"
    (PyObj.prim (PyVal.int 1))).1 rfl
  exact ⟨rfl, hA.1, hA.2.2.2.1, rfl, by rw [hB], rfl⟩

end CommandCore
